import Mathlib

/-!
Verification of the quotaservice core server (`server.go`, package
`quotaservice`) against its natural-language specification.

The embedding below translates the server implementation found in the
repository (the `server` struct and its methods: `Allow`, `Emit`, `Start`,
`configListener`, `readUpdatedConfig`, `createBucketContainer`,
`updateConfig`, the admin mutation methods, and `HistoricalConfigs`).
Collaborator packages (`config`, `events`, the token-bucket implementation
behind `BucketFactory`, the persister) are modelled abstractly: fallible
external functions become `Except`-valued parameters or small data types,
and the token bucket is a state plus a `Take` transition function, exactly
the interface the server code consumes.

Machine integers (`int64`, `time.Duration` in nanoseconds) are modelled as
`Int`; none of the verified paths perform arithmetic that can overflow in
a way the claims depend on. Error values carry only their error kind
(`ER_*` constants); the human-readable message strings built with
`fmt.Sprintf` are elided. Log output (`logging.Println`) is elided: the
claims concern state, results and emitted events only.
-/

namespace QuotaService

/-- Error kinds attached by `newError` on the failure paths of `Allow`
(`ER_NO_BUCKET`, `ER_TOO_MANY_BUCKETS`, `ER_TOO_MANY_TOKENS_REQUESTED`,
`ER_TIMEOUT` in the source). -/
inductive ErrorKind where
  | ER_NO_BUCKET
  | ER_TOO_MANY_BUCKETS
  | ER_TOO_MANY_TOKENS_REQUESTED
  | ER_TIMEOUT
  deriving DecidableEq, Repr

/-- BucketConfig: the per-bucket configuration message
(`protos/config`). Fields are `int64` in the source, modelled as `Int`. -/
structure BucketConfig where
  size : Int
  fillRate : Int
  waitTimeoutMillis : Int
  maxIdleMillis : Int
  maxDebtMillis : Int
  maxTokensPerRequest : Int
  deriving DecidableEq, Repr

/-- NamespaceConfig: a named grouping of buckets
(`protos/config`). -/
structure NamespaceConfig where
  name : String
  maxDynamicBuckets : Int
  dynamicBucketTemplate : Option BucketConfig
  defaultBucket : Option BucketConfig
  buckets : List (String × BucketConfig)
  deriving DecidableEq, Repr

/-- ServiceConfig: the versioned configuration root
(`protos/config`): `global_default_bucket`, namespaces, `version`,
`user`, `date`. -/
structure ServiceConfig where
  globalDefaultBucket : Option BucketConfig
  namespaces : List NamespaceConfig
  version : Int
  user : String
  date : Int
  deriving DecidableEq, Repr

/-- Events observable through `events.New*Event` constructors used by
`server.Allow`. Payloads follow the constructor arguments in the source:
namespace, bucket name, then the kind-specific fields. -/
inductive Event where
  | bucketMissed (ns name : String) (dyn : Bool)
  | tooManyTokensRequested (ns name : String) (dyn : Bool) (tokensRequested : Int)
  | timedOut (ns name : String) (dyn : Bool) (tokensRequested : Int)
  | tokensServed (ns name : String) (dyn : Bool) (tokensRequested : Int) (wait : Int)
  deriving DecidableEq, Repr

/-- The four event kinds `server.Allow` can emit. -/
inductive EventKind where
  | BUCKET_MISSED
  | TOO_MANY_TOKENS_REQUESTED
  | TIMED_OUT
  | TOKENS_SERVED
  deriving DecidableEq, Repr

/-- Kind of an event. -/
def Event.kind : Event → EventKind
  | .bucketMissed _ _ _ => .BUCKET_MISSED
  | .tooManyTokensRequested _ _ _ _ => .TOO_MANY_TOKENS_REQUESTED
  | .timedOut _ _ _ _ => .TIMED_OUT
  | .tokensServed _ _ _ _ _ => .TOKENS_SERVED

/-- A runtime bucket as consumed by `server.Allow`: the token-bucket
implementation is pluggable (`BucketFactory`), so `Take` is data: a
transition function from the bucket state and the arguments
`(tokensRequested, maxWaitTime in nanoseconds)` to
`(wait, success, new state)`, mirroring
`Take(tokens int64, maxWaitTime time.Duration) (time.Duration, bool)`.
`config` and `dynamic` mirror `Config()` and `Dynamic()`. -/
structure Bucket where
  config : BucketConfig
  dynamic : Bool
  state : Int
  takeFn : Int → Int → Int → Int × Bool × Int

/-- Result of `bucketContainer.FindBucket(namespace, name)` as seen by
`Allow`: either an error (`e != nil`: dynamic-bucket creation failed), a
nil bucket (`b == nil`: resolution miss), or a live bucket. -/
inductive FindResult where
  | failure
  | missing
  | found (b : Bucket)

/-- One nanosecond count of `time.Millisecond`. -/
def millisecond : Int := 1000000

/-- Result of a call to `server.Allow`, enriched with the trace the proofs
inspect: the list of events passed to `s.Emit` (in program order), the
list of `(tokensRequested, maxWaitTime)` argument pairs passed to
`b.Take`, and the bucket (with its possibly-updated state) after the
call. `wait`/`dyn`/`error` are the three return values
`(time.Duration, bool, error)`. -/
structure AllowResult where
  wait : Int
  dyn : Bool
  error : Option ErrorKind
  events : List Event
  takeCalls : List (Int × Int)
  bucketAfter : Option Bucket

/-- Shallow embedding of `server.Allow(namespace, name, tokensRequested,
maxWaitMillisOverride, maxWaitTimeOverride)`. Bucket resolution is
summarized by its outcome `find`; each return statement of the source
becomes one `AllowResult`, recording the single event it emits. -/
def Allow (ns name : String) (find : FindResult) (tokensRequested : Int)
    (maxWaitMillisOverride : Int) (maxWaitTimeOverride : Bool) : AllowResult :=
  match find with
  | .failure =>
      { wait := 0, dyn := true, error := some .ER_TOO_MANY_BUCKETS
        events := [.bucketMissed ns name true], takeCalls := [], bucketAfter := none }
  | .missing =>
      { wait := 0, dyn := false, error := some .ER_NO_BUCKET
        events := [.bucketMissed ns name false], takeCalls := [], bucketAfter := none }
  | .found b =>
      if b.config.maxTokensPerRequest < tokensRequested ∧ b.config.maxTokensPerRequest > 0 then
        { wait := 0, dyn := b.dynamic, error := some .ER_TOO_MANY_TOKENS_REQUESTED
          events := [.tooManyTokensRequested ns name b.dynamic tokensRequested]
          takeCalls := [], bucketAfter := some b }
      else
        let maxWaitTime : Int :=
          if maxWaitTimeOverride ∧ maxWaitMillisOverride < b.config.waitTimeoutMillis then
            millisecond * maxWaitMillisOverride
          else
            millisecond * b.config.waitTimeoutMillis
        let t := b.takeFn b.state tokensRequested maxWaitTime
        if ¬ t.2.1 then
          { wait := 0, dyn := b.dynamic, error := some .ER_TIMEOUT
            events := [.timedOut ns name b.dynamic tokensRequested]
            takeCalls := [(tokensRequested, maxWaitTime)]
            bucketAfter := some { b with state := t.2.2 } }
        else
          { wait := t.1, dyn := b.dynamic, error := none
            events := [.tokensServed ns name b.dynamic tokensRequested t.1]
            takeCalls := [(tokensRequested, maxWaitTime)]
            bucketAfter := some { b with state := t.2.2 } }

/-- State of the `events.EventProducer` registered in `Start`: a bounded
queue plus a drop counter. Modelled from the spec: `EventProducer.Emit`
enqueues into a bounded buffer of size `eventQueueBufSize` and drops the
event (counting drops) when the buffer is full; the producer itself lives
in the `events` package. -/
structure ProducerState where
  buf : List Event
  bufSize : Nat
  dropped : Nat
  deriving DecidableEq, Repr

/-- Modelled from the spec: the `events` package producer `Emit` —
non-blocking enqueue into the bounded buffer, dropping when full. -/
def producerEmit (p : ProducerState) (e : Event) : ProducerState :=
  if p.buf.length < p.bufSize then { p with buf := p.buf ++ [e] }
  else { p with dropped := p.dropped + 1 }

/-- Shallow embedding of `server.Emit`: forwards to the producer when one
is registered (`s.producer != nil`) and does nothing otherwise. -/
def serverEmit (producer : Option ProducerState) (e : Event) : Option ProducerState :=
  match producer with
  | none => none
  | some p => some (producerEmit p e)

/-- Serialized configuration bytes, as read back through `config.Unmarshal`.
Modelled from the spec: the `config` package (not part of the core server
file) serializes a `ServiceConfig` to a field-tagged wire format; for the
core what matters is only whether a byte stream deserializes to a config
or fails, so a stream is either the well-formed serialization of a config
or corrupt. -/
inductive Marshalled where
  | bytes (c : ServiceConfig)
  | corrupt
  deriving DecidableEq, Repr

/-- Modelled from the spec: `config.Unmarshal` deserializes a persisted
stream, failing on corrupt input. -/
def Unmarshal : Marshalled → Except String ServiceConfig
  | .bytes c => .ok c
  | .corrupt => .error "unmarshal failure"

/-- The configuration persister as observed by the server
(`config.ConfigPersister`): the result `ReadPersistedConfig` would return,
the result `ReadHistoricalConfigs` would return, the number of pending
change signals on the `ConfigChangedWatcher` channel, and whether
`PersistAndNotify` would fail. -/
structure Persister where
  current : Except String Marshalled
  history : Except String (List Marshalled)
  signals : Nat
  persistError : Option String

/-- Modelled from the spec: `PersistAndNotify(bytes)` atomically stores
the bytes (they become the persisted config and are appended to the
history) and signals every watcher, or fails with the persister error. -/
def PersistAndNotify (p : Persister) (m : Marshalled) : Except String Persister :=
  match p.persistError with
  | some e => .error e
  | none =>
      .ok { p with
              current := .ok m
              history := p.history.map (fun h => h ++ [m])
              signals := p.signals + 1 }

/-- The live bucket container. Modelled from the spec: `NewBucketContainer`
builds the namespace/bucket registry from a `ServiceConfig`; for the
server-level claims only the identity of the config it was built from is
inspected. -/
structure BucketContainer where
  builtFrom : ServiceConfig
  deriving DecidableEq, Repr

/-- Lifecycle status (`lifecycle.Status`). -/
inductive Status where
  | init
  | started
  | stopped
  deriving DecidableEq, Repr

/-- The mutable fields of the `server` struct the verified methods touch:
`currentStatus`, `bucketContainer` (nil before the first install), `cfgs`
(nil before the first install), the registered event producer, the
configured event-queue buffer size, and the trace of configs passed to
`bucketFactory.Init`. -/
structure ServerState where
  currentStatus : Status
  bucketContainer : Option BucketContainer
  cfgs : Option ServiceConfig
  producer : Option ProducerState
  eventQueueBufSize : Int
  factoryInits : List ServiceConfig

/-- Shallow embedding of `server.createBucketContainer(newConfig)`:
initialize the bucket factory with the new config, set `s.cfgs`, and
install a freshly built container. -/
def createBucketContainer (s : ServerState) (newConfig : ServiceConfig) : ServerState :=
  { s with
      factoryInits := s.factoryInits ++ [newConfig]
      cfgs := some newConfig
      bucketContainer := some { builtFrom := newConfig } }

/-- Shallow embedding of `server.readUpdatedConfig`: read the persisted
config — on a read error, log and return; unmarshal it — on an unmarshal
error, log and return; otherwise install via `createBucketContainer`. -/
def readUpdatedConfig (s : ServerState) (p : Persister) : ServerState :=
  match p.current with
  | .error _ => s
  | .ok configReader =>
      match Unmarshal configReader with
      | .error _ => s
      | .ok newConfig => createBucketContainer s newConfig

/-- One iteration of `server.configListener(ch)`: the loop blocks until a
signal is pending on the watcher channel (`none` while blocked), then
consumes one signal and runs `readUpdatedConfig`. -/
def configListenerStep (s : ServerState) (p : Persister) :
    Option (ServerState × Persister) :=
  match p.signals with
  | 0 => none
  | Nat.succ k =>
      let p1 : Persister := { p with signals := k }
      some (readUpdatedConfig s p1, p1)

/-- Shallow embedding of `server.Start`: register the event-listener
producer (buffer size forced to at least 1), block on the first signal
from `persister.ConfigChangedWatcher()` (`none` while no signal is
pending), run `readUpdatedConfig` once, hand the remaining signals to the
spawned `configListener`, and mark the server started. The RPC endpoint
start-up is elided. -/
def Start (s : ServerState) (p : Persister) : Option (ServerState × Persister) :=
  let bufSize : Int := if s.eventQueueBufSize < 1 then 1 else s.eventQueueBufSize
  let s1 : ServerState :=
    { s with producer := some { buf := [], bufSize := bufSize.toNat, dropped := 0 } }
  match p.signals with
  | 0 => none
  | Nat.succ k =>
      let p1 : Persister := { p with signals := k }
      let s2 := readUpdatedConfig s1 p1
      some ({ s2 with currentStatus := .started }, p1)

/-- Outcome of `server.updateConfig`, enriched with the traces the proofs
inspect: the error result, the server state and persister after the call,
the list of configs passed to `config.Marshal`, and the list of byte
streams passed to `persister.PersistAndNotify`. -/
structure UpdateOutcome where
  result : Except String Unit
  server : ServerState
  persister : Persister
  marshalCalls : List ServiceConfig
  persistCalls : List Marshalled

/-- Shallow embedding of `server.updateConfig(user, updater)`. The live
config is deep-cloned (value semantics), its version recorded, the
updater applied to the clone (an updater mutating the clone in place
becomes a function returning the mutated clone or an error), then
`config.ApplyDefaults` — an external `config`-package function, passed in
as `applyDefaults` — is applied, the clone is stamped with `user`,
`date := now` (`time.Now().Unix()`, passed in as `now`) and
`version := currentVersion + 1`, marshalled (`config.Marshal`, passed in
as `marshal`), and handed to `PersistAndNotify`. The server state is
never written. When `s.cfgs` is nil the source would dereference a nil
clone, so the embedding is undefined (`none`) there. -/
def serverUpdateConfig (s : ServerState) (p : Persister) (user : String) (now : Int)
    (applyDefaults : ServiceConfig → ServiceConfig)
    (marshal : ServiceConfig → Except String Marshalled)
    (updater : ServiceConfig → Except String ServiceConfig) : Option UpdateOutcome :=
  match s.cfgs with
  | none => none
  | some live =>
      let clonedCfg := live
      let currentVersion := clonedCfg.version
      match updater clonedCfg with
      | .error e =>
          some { result := .error e, server := s, persister := p
                 marshalCalls := [], persistCalls := [] }
      | .ok updated =>
          let defaulted := applyDefaults updated
          let stamped : ServiceConfig :=
            { defaulted with user := user, date := now, version := currentVersion + 1 }
          match marshal stamped with
          | .error e =>
              some { result := .error e, server := s, persister := p
                     marshalCalls := [stamped], persistCalls := [] }
          | .ok r =>
              match PersistAndNotify p r with
              | .error e =>
                  some { result := .error e, server := s, persister := p
                         marshalCalls := [stamped], persistCalls := [r] }
              | .ok p2 =>
                  some { result := .ok (), server := s, persister := p2
                         marshalCalls := [stamped], persistCalls := [r] }

/-- Shallow embedding of `server.UpdateConfig(c, user)`: the updater
overwrites the clone wholesale with `c` and never fails. -/
def UpdateConfig (s : ServerState) (p : Persister) (c : ServiceConfig) (user : String)
    (now : Int) (applyDefaults : ServiceConfig → ServiceConfig)
    (marshal : ServiceConfig → Except String Marshalled) : Option UpdateOutcome :=
  serverUpdateConfig s p user now applyDefaults marshal (fun _clonedCfg => .ok c)

/-- Shallow embedding of `server.AddBucket(namespace, b, user)`;
`config.CreateBucket` is the external updater `createBucket`. -/
def AddBucket (s : ServerState) (p : Persister)
    (createBucket : ServiceConfig → String → BucketConfig → Except String ServiceConfig)
    (ns : String) (b : BucketConfig) (user : String)
    (now : Int) (applyDefaults : ServiceConfig → ServiceConfig)
    (marshal : ServiceConfig → Except String Marshalled) : Option UpdateOutcome :=
  serverUpdateConfig s p user now applyDefaults marshal (fun clonedCfg => createBucket clonedCfg ns b)

/-- Shallow embedding of `server.UpdateBucket(namespace, b, user)`. -/
def UpdateBucket (s : ServerState) (p : Persister)
    (updateBucket : ServiceConfig → String → BucketConfig → Except String ServiceConfig)
    (ns : String) (b : BucketConfig) (user : String)
    (now : Int) (applyDefaults : ServiceConfig → ServiceConfig)
    (marshal : ServiceConfig → Except String Marshalled) : Option UpdateOutcome :=
  serverUpdateConfig s p user now applyDefaults marshal (fun clonedCfg => updateBucket clonedCfg ns b)

/-- Shallow embedding of `server.DeleteBucket(namespace, name, user)`. -/
def DeleteBucket (s : ServerState) (p : Persister)
    (deleteBucket : ServiceConfig → String → String → Except String ServiceConfig)
    (ns name : String) (user : String)
    (now : Int) (applyDefaults : ServiceConfig → ServiceConfig)
    (marshal : ServiceConfig → Except String Marshalled) : Option UpdateOutcome :=
  serverUpdateConfig s p user now applyDefaults marshal (fun clonedCfg => deleteBucket clonedCfg ns name)

/-- Shallow embedding of `server.AddNamespace(n, user)`. -/
def AddNamespace (s : ServerState) (p : Persister)
    (createNamespace : ServiceConfig → NamespaceConfig → Except String ServiceConfig)
    (n : NamespaceConfig) (user : String)
    (now : Int) (applyDefaults : ServiceConfig → ServiceConfig)
    (marshal : ServiceConfig → Except String Marshalled) : Option UpdateOutcome :=
  serverUpdateConfig s p user now applyDefaults marshal (fun clonedCfg => createNamespace clonedCfg n)

/-- Shallow embedding of `server.UpdateNamespace(n, user)`. -/
def UpdateNamespace (s : ServerState) (p : Persister)
    (updateNamespace : ServiceConfig → NamespaceConfig → Except String ServiceConfig)
    (n : NamespaceConfig) (user : String)
    (now : Int) (applyDefaults : ServiceConfig → ServiceConfig)
    (marshal : ServiceConfig → Except String Marshalled) : Option UpdateOutcome :=
  serverUpdateConfig s p user now applyDefaults marshal (fun clonedCfg => updateNamespace clonedCfg n)

/-- Shallow embedding of `server.DeleteNamespace(n, user)`. -/
def DeleteNamespace (s : ServerState) (p : Persister)
    (deleteNamespace : ServiceConfig → String → Except String ServiceConfig)
    (n : String) (user : String)
    (now : Int) (applyDefaults : ServiceConfig → ServiceConfig)
    (marshal : ServiceConfig → Except String Marshalled) : Option UpdateOutcome :=
  serverUpdateConfig s p user now applyDefaults marshal (fun clonedCfg => deleteNamespace clonedCfg n)

/-- The unmarshalling loop of `server.HistoricalConfigs`: deserialize each
persisted historical stream in order, aborting with the first error. -/
def unmarshalAll : List Marshalled → Except String (List ServiceConfig)
  | [] => .ok []
  | m :: rest =>
      match Unmarshal m with
      | .error e => .error e
      | .ok c =>
          match unmarshalAll rest with
          | .error e => .error e
          | .ok cs => .ok (c :: cs)

/-- Comparison used by `sort.Sort(SortedConfigs)`. Modelled from the spec:
the `SortedConfigs` ordering (its `Less` method lives outside the core
server file) sorts configs by `version` descending. -/
def sortedConfigsLe (a b : ServiceConfig) : Bool := b.version ≤ a.version

/-- Shallow embedding of `server.HistoricalConfigs()`: read the history
(propagating a read error), unmarshal every element (propagating the
first unmarshal error; the Go code returns a nil slice alongside the
error, which the `Except` error case models), then sort by version
descending. -/
def HistoricalConfigs (p : Persister) : Except String (List ServiceConfig) :=
  match p.history with
  | .error e => .error e
  | .ok configs =>
      match unmarshalAll configs with
      | .error e => .error e
      | .ok unmarshalledConfigs => .ok (unmarshalledConfigs.mergeSort sortedConfigsLe)

/-- Threading the producer through the `s.Emit` calls an `Allow` call
makes, exactly as the source interleaves them: the decision is computed
and each emitted event is folded through `serverEmit`. -/
def AllowOnServer (producer : Option ProducerState) (ns name : String) (find : FindResult)
    (tokensRequested maxWaitMillisOverride : Int) (maxWaitTimeOverride : Bool) :
    AllowResult × Option ProducerState :=
  let r := Allow ns name find tokensRequested maxWaitMillisOverride maxWaitTimeOverride
  (r, r.events.foldl serverEmit producer)

section AllowTheorems

/-- C1: whenever `Allow` reaches the `Take` step, the `maxWait` passed to
`Take` is `overrideWaitMillis` milliseconds when the override flag is set
and the override is strictly below the bucket's `wait_timeout_millis`,
and the bucket's `wait_timeout_millis` milliseconds otherwise; in
particular an override at or above the configured timeout leaves the cap
at the configured timeout. -/
theorem allow_maxWait_cap (ns name : String) (b : Bucket) (n ow : Int) (uo : Bool)
    (h : ¬ (b.config.maxTokensPerRequest < n ∧ b.config.maxTokensPerRequest > 0)) :
    (Allow ns name (.found b) n ow uo).takeCalls =
      [(n, if uo ∧ ow < b.config.waitTimeoutMillis then millisecond * ow
           else millisecond * b.config.waitTimeoutMillis)] ∧
    (uo = true → b.config.waitTimeoutMillis ≤ ow →
      (Allow ns name (.found b) n ow uo).takeCalls =
        [(n, millisecond * b.config.waitTimeoutMillis)]) := by
  constructor
  · simp only [Allow, if_neg h]
    split <;> (split <;> rfl)
  · intro _ hle
    have hc : ¬ (uo = true ∧ ow < b.config.waitTimeoutMillis) := by
      rintro ⟨-, hlt⟩
      exact absurd hlt (not_lt.mpr hle)
    simp only [Allow, if_neg h, if_neg hc]
    split <;> rfl

/-- Witness for C1 at a concrete bucket (`wait_timeout_millis = 5000`,
no per-request cap): an override of 100 ms caps the wait at 100 ms
(100000000 ns), while an override of 10000 ms leaves the cap at 5000 ms
(5000000000 ns). -/
theorem allow_maxWait_cap_witness :
    (Allow "ns" "b"
        (.found { config := { size := 10, fillRate := 10, waitTimeoutMillis := 5000,
                              maxIdleMillis := 0, maxDebtMillis := 0, maxTokensPerRequest := 0 },
                  dynamic := false, state := 0,
                  takeFn := fun st _ _ => (0, true, st) }) 1 100 true).takeCalls =
      [(1, 100000000)] ∧
    (Allow "ns" "b"
        (.found { config := { size := 10, fillRate := 10, waitTimeoutMillis := 5000,
                              maxIdleMillis := 0, maxDebtMillis := 0, maxTokensPerRequest := 0 },
                  dynamic := false, state := 0,
                  takeFn := fun st _ _ => (0, true, st) }) 1 10000 true).takeCalls =
      [(1, 5000000000)] := by
  refine ⟨?_, ?_⟩
  · have := allow_maxWait_cap "ns" "b"
      { config := { size := 10, fillRate := 10, waitTimeoutMillis := 5000,
                    maxIdleMillis := 0, maxDebtMillis := 0, maxTokensPerRequest := 0 },
        dynamic := false, state := 0, takeFn := fun st _ _ => (0, true, st) }
      1 100 true (by decide)
    simpa using this.1
  · exact allow_maxWait_cap "ns" "b"
      { config := { size := 10, fillRate := 10, waitTimeoutMillis := 5000,
                    maxIdleMillis := 0, maxDebtMillis := 0, maxTokensPerRequest := 0 },
        dynamic := false, state := 0, takeFn := fun st _ _ => (0, true, st) }
      1 10000 true (by decide) |>.2 rfl (by decide)

/-- C3: when a resolved bucket has a positive `max_tokens_per_request`
and the request exceeds it, `Allow` emits `TOO_MANY_TOKENS_REQUESTED` and
fails with `ER_TOO_MANY_TOKENS_REQUESTED` without invoking `Take` (no
`Take` call is traced and the bucket, including its state, is returned
unchanged); and when `max_tokens_per_request` is `0` the check rejects no
request size (`Take` is always reached and the error, if any, is not
`ER_TOO_MANY_TOKENS_REQUESTED`). -/
theorem allow_max_tokens_check (ns name : String) (b : Bucket) (n ow : Int) (uo : Bool) :
    (b.config.maxTokensPerRequest > 0 → n > b.config.maxTokensPerRequest →
      Allow ns name (.found b) n ow uo =
        { wait := 0, dyn := b.dynamic, error := some .ER_TOO_MANY_TOKENS_REQUESTED
          events := [.tooManyTokensRequested ns name b.dynamic n]
          takeCalls := [], bucketAfter := some b }) ∧
    (b.config.maxTokensPerRequest = 0 →
      (Allow ns name (.found b) n ow uo).takeCalls ≠ [] ∧
      (Allow ns name (.found b) n ow uo).error ≠ some .ER_TOO_MANY_TOKENS_REQUESTED) := by
  constructor
  · intro hpos hgt
    have hcond : b.config.maxTokensPerRequest < n ∧ b.config.maxTokensPerRequest > 0 :=
      ⟨hgt, hpos⟩
    simp only [Allow, if_pos hcond]
  · intro hzero
    have hc : ¬ (b.config.maxTokensPerRequest < n ∧ b.config.maxTokensPerRequest > 0) := by
      rintro ⟨-, hpos⟩
      rw [hzero] at hpos
      exact lt_irrefl 0 hpos
    constructor
    · simp only [Allow, if_neg hc]
      split <;> (split <;> simp)
    · simp only [Allow, if_neg hc]
      split <;> (split <;> simp)

/-- Witness for C3: a bucket with `max_tokens_per_request = 5` rejects a
request for 6 tokens with `ER_TOO_MANY_TOKENS_REQUESTED`, no `Take` call
and an unchanged bucket; a bucket with `max_tokens_per_request = 0`
rejects nothing. -/
theorem allow_max_tokens_check_witness :
    Allow "qns" "qb"
        (.found { config := { size := 10, fillRate := 10, waitTimeoutMillis := 1000,
                              maxIdleMillis := 0, maxDebtMillis := 0, maxTokensPerRequest := 5 },
                  dynamic := true, state := 7,
                  takeFn := fun st _ _ => (0, true, st) }) 6 0 false =
      { wait := 0, dyn := true, error := some .ER_TOO_MANY_TOKENS_REQUESTED
        events := [.tooManyTokensRequested "qns" "qb" true 6]
        takeCalls := []
        bucketAfter := some { config := { size := 10, fillRate := 10, waitTimeoutMillis := 1000,
                                          maxIdleMillis := 0, maxDebtMillis := 0,
                                          maxTokensPerRequest := 5 },
                              dynamic := true, state := 7,
                              takeFn := fun st _ _ => (0, true, st) } } ∧
    (Allow "qns" "qb"
        (.found { config := { size := 10, fillRate := 10, waitTimeoutMillis := 1000,
                              maxIdleMillis := 0, maxDebtMillis := 0, maxTokensPerRequest := 0 },
                  dynamic := true, state := 7,
                  takeFn := fun st _ _ => (0, true, st) }) 6 0 false).error ≠
      some .ER_TOO_MANY_TOKENS_REQUESTED :=
  ⟨(allow_max_tokens_check "qns" "qb"
      { config := { size := 10, fillRate := 10, waitTimeoutMillis := 1000,
                    maxIdleMillis := 0, maxDebtMillis := 0, maxTokensPerRequest := 5 },
        dynamic := true, state := 7,
        takeFn := fun st _ _ => (0, true, st) } 6 0 false).1 (by decide) (by decide),
   ((allow_max_tokens_check "qns" "qb"
      { config := { size := 10, fillRate := 10, waitTimeoutMillis := 1000,
                    maxIdleMillis := 0, maxDebtMillis := 0, maxTokensPerRequest := 0 },
        dynamic := true, state := 7,
        takeFn := fun st _ _ => (0, true, st) } 6 0 false).2 rfl).2⟩

/-- Bucket used to exhibit the fifth `Allow` outcome: `max_tokens_per_request = 1`. -/
def smallCapBucket : Bucket :=
  { config := { size := 10, fillRate := 10, waitTimeoutMillis := 1000,
                maxIdleMillis := 0, maxDebtMillis := 0, maxTokensPerRequest := 1 }
    dynamic := false, state := 0
    takeFn := fun st _ _ => (0, true, st) }

/-- C2 counterexample: requesting 2 tokens from a resolved bucket whose
`max_tokens_per_request` is 1 produces an outcome — event
`TOO_MANY_TOKENS_REQUESTED`, error `ER_TOO_MANY_TOKENS_REQUESTED` — that
is none of the four outcomes the claim lists as the only possible ones
(`NO_BUCKET`, `TOO_MANY_BUCKETS`, `TIMEOUT`, or success with
`TOKENS_SERVED`). -/
theorem allow_outcomes_cex :
    (Allow "cns" "cb" (.found smallCapBucket) 2 0 false).error =
      some .ER_TOO_MANY_TOKENS_REQUESTED ∧
    (Allow "cns" "cb" (.found smallCapBucket) 2 0 false).events =
      [.tooManyTokensRequested "cns" "cb" false 2] ∧
    (Allow "cns" "cb" (.found smallCapBucket) 2 0 false).error ≠ some .ER_NO_BUCKET ∧
    (Allow "cns" "cb" (.found smallCapBucket) 2 0 false).error ≠ some .ER_TOO_MANY_BUCKETS ∧
    (Allow "cns" "cb" (.found smallCapBucket) 2 0 false).error ≠ some .ER_TIMEOUT ∧
    (Allow "cns" "cb" (.found smallCapBucket) 2 0 false).error ≠ none := by
  decide

/-- C2 (amended): the result of `Allow` and the emitted event correspond
exactly on every path — dynamic-creation failure gives `BUCKET_MISSED`
with the attempted-creation flag true and `ER_TOO_MANY_BUCKETS`; a nil
bucket gives `BUCKET_MISSED` (flag false) and `ER_NO_BUCKET`; a request
above a positive `max_tokens_per_request` gives
`TOO_MANY_TOKENS_REQUESTED`; a failed `Take` gives `TIMED_OUT`,
`ER_TIMEOUT` and zero wait; a successful `Take` gives `TOKENS_SERVED`
and `(wait, b.Dynamic(), nil)` — and, the case split being exhaustive,
these five are the only possible outcomes. -/
theorem allow_outcomes (ns name : String) (find : FindResult) (n ow : Int) (uo : Bool) :
    (find = .failure →
      Allow ns name find n ow uo =
        { wait := 0, dyn := true, error := some .ER_TOO_MANY_BUCKETS
          events := [.bucketMissed ns name true], takeCalls := [], bucketAfter := none }) ∧
    (find = .missing →
      Allow ns name find n ow uo =
        { wait := 0, dyn := false, error := some .ER_NO_BUCKET
          events := [.bucketMissed ns name false], takeCalls := [], bucketAfter := none }) ∧
    (∀ b, find = .found b →
      (b.config.maxTokensPerRequest < n ∧ b.config.maxTokensPerRequest > 0) →
      Allow ns name find n ow uo =
        { wait := 0, dyn := b.dynamic, error := some .ER_TOO_MANY_TOKENS_REQUESTED
          events := [.tooManyTokensRequested ns name b.dynamic n]
          takeCalls := [], bucketAfter := some b }) ∧
    (∀ b, find = .found b →
      ¬ (b.config.maxTokensPerRequest < n ∧ b.config.maxTokensPerRequest > 0) →
      ∀ mw t,
        mw = (if uo ∧ ow < b.config.waitTimeoutMillis then millisecond * ow
              else millisecond * b.config.waitTimeoutMillis) →
        t = b.takeFn b.state n mw →
        (t.2.1 = false →
          Allow ns name find n ow uo =
            { wait := 0, dyn := b.dynamic, error := some .ER_TIMEOUT
              events := [.timedOut ns name b.dynamic n]
              takeCalls := [(n, mw)], bucketAfter := some { b with state := t.2.2 } }) ∧
        (t.2.1 = true →
          Allow ns name find n ow uo =
            { wait := t.1, dyn := b.dynamic, error := none
              events := [.tokensServed ns name b.dynamic n t.1]
              takeCalls := [(n, mw)], bucketAfter := some { b with state := t.2.2 } })) := by
  refine ⟨?_, ?_, ?_, ?_⟩
  · rintro rfl; rfl
  · rintro rfl; rfl
  · rintro b rfl hcond
    simp only [Allow, if_pos hcond]
  · rintro b rfl hcond mw t rfl rfl
    constructor
    · intro hfail
      simp [Allow, if_neg hcond, hfail]
    · intro hok
      simp [Allow, if_neg hcond, hok]

/-- Witness for C2 (amended) at the nil-bucket input: the resolution miss
yields `BUCKET_MISSED` and `ER_NO_BUCKET`. -/
theorem allow_outcomes_witness :
    Allow "wns" "wb" .missing 1 0 false =
      { wait := 0, dyn := false, error := some .ER_NO_BUCKET
        events := [.bucketMissed "wns" "wb" false], takeCalls := [], bucketAfter := none } :=
  (allow_outcomes "wns" "wb" .missing 1 0 false).2.1 rfl

/-- C10: every `Allow` call emits exactly one event on every control-flow
path; that event is one of `BUCKET_MISSED`, `TOO_MANY_TOKENS_REQUESTED`,
`TIMED_OUT`, `TOKENS_SERVED`; `server.Emit` is a no-op when no event
producer has been registered; and threading the producer through the
`Emit` calls never changes the values `Allow` returns. -/
theorem allow_emit_discipline (ns name : String) (find : FindResult) (n ow : Int) (uo : Bool) :
    (Allow ns name find n ow uo).events.length = 1 ∧
    (∀ e, e ∈ (Allow ns name find n ow uo).events →
      e.kind = .BUCKET_MISSED ∨ e.kind = .TOO_MANY_TOKENS_REQUESTED ∨
      e.kind = .TIMED_OUT ∨ e.kind = .TOKENS_SERVED) ∧
    (∀ e, serverEmit none e = none) ∧
    (∀ producer,
      (AllowOnServer producer ns name find n ow uo).1 = Allow ns name find n ow uo ∧
      (AllowOnServer producer ns name find n ow uo).2 =
        (Allow ns name find n ow uo).events.foldl serverEmit producer) := by
  refine ⟨?_, ?_, fun e => rfl, fun producer => ⟨rfl, rfl⟩⟩
  · cases find with
    | failure => rfl
    | missing => rfl
    | found b =>
      simp only [Allow]
      split
      · rfl
      · split <;> (split <;> rfl)
  · intro e _
    cases e <;> simp [Event.kind]

/-- Witness for C10 at the nil-bucket input: one event is emitted and its
kind is `BUCKET_MISSED`. -/
theorem allow_emit_discipline_witness :
    (Allow "ens" "eb" .missing 3 0 false).events.length = 1 ∧
    ((Event.bucketMissed "ens" "eb" false).kind = .BUCKET_MISSED ∨
     (Event.bucketMissed "ens" "eb" false).kind = .TOO_MANY_TOKENS_REQUESTED ∨
     (Event.bucketMissed "ens" "eb" false).kind = .TIMED_OUT ∨
     (Event.bucketMissed "ens" "eb" false).kind = .TOKENS_SERVED) :=
  ⟨(allow_emit_discipline "ens" "eb" .missing 3 0 false).1,
   (allow_emit_discipline "ens" "eb" .missing 3 0 false).2.1 _ (by decide)⟩

end AllowTheorems

section ConfigTheorems

/-- C4: every successful config mutation persists a config stamped with
`user`, `date := now` and `version := (live version at clone time) + 1`,
to which `ApplyDefaults` has been applied before serialization: the one
config handed to `config.Marshal` is exactly the defaulted, stamped
clone, and the one byte stream handed to `PersistAndNotify` is its
serialization; and each admin method (`UpdateConfig`, `AddBucket`,
`UpdateBucket`, `DeleteBucket`, `AddNamespace`, `UpdateNamespace`,
`DeleteNamespace`) is `updateConfig` applied to its updater, so the same
holds for all of them. -/
theorem updateConfig_stamps (s : ServerState) (p : Persister) (user : String) (now : Int)
    (applyDefaults : ServiceConfig → ServiceConfig)
    (marshal : ServiceConfig → Except String Marshalled)
    (f : ServiceConfig → Except String ServiceConfig)
    (live c1 : ServiceConfig) (m : Marshalled)
    (hs : s.cfgs = some live) (hf : f live = .ok c1)
    (hm : marshal { applyDefaults c1 with
                      user := user, date := now, version := live.version + 1 } = .ok m)
    (hp : p.persistError = none) :
    serverUpdateConfig s p user now applyDefaults marshal f =
      some { result := .ok (), server := s
             persister := { p with
                              current := .ok m
                              history := p.history.map (fun h => h ++ [m])
                              signals := p.signals + 1 }
             marshalCalls := [{ applyDefaults c1 with
                                  user := user, date := now, version := live.version + 1 }]
             persistCalls := [m] } ∧
    ({ applyDefaults c1 with
         user := user, date := now, version := live.version + 1 } : ServiceConfig).version =
      live.version + 1 ∧
    ({ applyDefaults c1 with
         user := user, date := now, version := live.version + 1 } : ServiceConfig).user = user ∧
    ({ applyDefaults c1 with
         user := user, date := now, version := live.version + 1 } : ServiceConfig).date = now ∧
    (∀ c, UpdateConfig s p c user now applyDefaults marshal =
      serverUpdateConfig s p user now applyDefaults marshal (fun _clonedCfg => .ok c)) ∧
    (∀ cb nsx bx, AddBucket s p cb nsx bx user now applyDefaults marshal =
      serverUpdateConfig s p user now applyDefaults marshal (fun c => cb c nsx bx)) ∧
    (∀ ub nsx bx, UpdateBucket s p ub nsx bx user now applyDefaults marshal =
      serverUpdateConfig s p user now applyDefaults marshal (fun c => ub c nsx bx)) ∧
    (∀ db nsx namex, DeleteBucket s p db nsx namex user now applyDefaults marshal =
      serverUpdateConfig s p user now applyDefaults marshal (fun c => db c nsx namex)) ∧
    (∀ cn nx, AddNamespace s p cn nx user now applyDefaults marshal =
      serverUpdateConfig s p user now applyDefaults marshal (fun c => cn c nx)) ∧
    (∀ un nx, UpdateNamespace s p un nx user now applyDefaults marshal =
      serverUpdateConfig s p user now applyDefaults marshal (fun c => un c nx)) ∧
    (∀ dn nx, DeleteNamespace s p dn nx user now applyDefaults marshal =
      serverUpdateConfig s p user now applyDefaults marshal (fun c => dn c nx)) := by
  refine ⟨?_, rfl, rfl, rfl, fun c => rfl, fun cb nsx bx => rfl, fun ub nsx bx => rfl,
    fun db nsx namex => rfl, fun cn nx => rfl, fun un nx => rfl, fun dn nx => rfl⟩
  simp only [serverUpdateConfig, hs, hf, hm, PersistAndNotify, hp]

/-- Sample configuration used by the concrete witnesses. -/
def sampleCfg : ServiceConfig :=
  { globalDefaultBucket := none, namespaces := [], version := 3, user := "alice", date := 100 }

/-- Sample server state holding `sampleCfg` as the live config. -/
def sampleSrv : ServerState :=
  { currentStatus := .started, bucketContainer := some { builtFrom := sampleCfg }
    cfgs := some sampleCfg, producer := none, eventQueueBufSize := 1, factoryInits := [] }

/-- Sample persister with an empty history and no pending signal. -/
def samplePer : Persister :=
  { current := .ok (.bytes sampleCfg), history := .ok [], signals := 0, persistError := none }

/-- The stamp of `sampleCfg` after the identity updater under user `bob`
at time 200. -/
def sampleStamped : ServiceConfig :=
  { globalDefaultBucket := none, namespaces := [], version := 4, user := "bob", date := 200 }

/-- Witness for C4: mutating `sampleCfg` (version 3) with the identity
updater persists a config stamped `version 4`, `user bob`, `date 200`. -/
theorem updateConfig_stamps_witness :
    serverUpdateConfig sampleSrv samplePer "bob" 200 id
        (fun c => .ok (.bytes c)) (fun c => .ok c) =
      some { result := .ok (), server := sampleSrv
             persister := { samplePer with
                              current := .ok (.bytes sampleStamped)
                              history := .ok [.bytes sampleStamped]
                              signals := 1 }
             marshalCalls := [sampleStamped]
             persistCalls := [.bytes sampleStamped] } := by
  have h := (updateConfig_stamps sampleSrv samplePer "bob" 200 id
    (fun c => .ok (.bytes c)) (fun c => .ok c) sampleCfg sampleCfg
    (.bytes sampleStamped) rfl rfl rfl rfl).1
  simpa using h

/-- C5: when the updater fails, or serialization of the mutated clone
fails, `updateConfig` propagates that error, `PersistAndNotify` is never
called (the persist-call trace is empty), and both the persister and the
server state (its live config and container) are returned unchanged. -/
theorem updateConfig_atomic_on_error (s : ServerState) (p : Persister) (user : String)
    (now : Int) (applyDefaults : ServiceConfig → ServiceConfig)
    (marshal : ServiceConfig → Except String Marshalled)
    (f : ServiceConfig → Except String ServiceConfig)
    (live : ServiceConfig) (hs : s.cfgs = some live) :
    (∀ e, f live = .error e →
      serverUpdateConfig s p user now applyDefaults marshal f =
        some { result := .error e, server := s, persister := p
               marshalCalls := [], persistCalls := [] }) ∧
    (∀ c1 e, f live = .ok c1 →
      marshal { applyDefaults c1 with
                  user := user, date := now, version := live.version + 1 } = .error e →
      serverUpdateConfig s p user now applyDefaults marshal f =
        some { result := .error e, server := s, persister := p
               marshalCalls := [{ applyDefaults c1 with
                                    user := user, date := now, version := live.version + 1 }]
               persistCalls := [] }) := by
  constructor
  · intro e hf
    simp only [serverUpdateConfig, hs, hf]
  · intro c1 e hf hm
    simp only [serverUpdateConfig, hs, hf, hm]

/-- Witness for C5: a failing updater aborts the mutation with its error,
leaving the persister untouched and no persist call made. -/
theorem updateConfig_atomic_on_error_witness :
    serverUpdateConfig sampleSrv samplePer "bob" 200 id
        (fun c => .ok (.bytes c)) (fun _c => .error "namespace already exists") =
      some { result := .error "namespace already exists", server := sampleSrv
             persister := samplePer, marshalCalls := [], persistCalls := [] } :=
  (updateConfig_atomic_on_error sampleSrv samplePer "bob" 200 id
    (fun c => .ok (.bytes c)) (fun _c => .error "namespace already exists")
    sampleCfg rfl).1 "namespace already exists" rfl

/-- C6: a config mutation never installs the new config itself — whatever
outcome `updateConfig` produces, the server state (in particular its live
config reference and its bucket container) is exactly the state before
the call; the container is installed only on the watcher path, where a
`configListener` iteration runs `readUpdatedConfig`, which on a
successful read and unmarshal installs via `createBucketContainer`. -/
theorem updateConfig_does_not_install (s : ServerState) (p : Persister) (user : String)
    (now : Int) (applyDefaults : ServiceConfig → ServiceConfig)
    (marshal : ServiceConfig → Except String Marshalled)
    (f : ServiceConfig → Except String ServiceConfig) (o : UpdateOutcome)
    (h : serverUpdateConfig s p user now applyDefaults marshal f = some o) :
    o.server = s ∧ o.server.cfgs = s.cfgs ∧ o.server.bucketContainer = s.bucketContainer ∧
    (∀ s2 p2 r, configListenerStep s2 p2 = some r → r.1 = readUpdatedConfig s2 r.2) ∧
    (∀ s2 p2 m cfg, p2.current = .ok m → Unmarshal m = .ok cfg →
      readUpdatedConfig s2 p2 = createBucketContainer s2 cfg ∧
      (createBucketContainer s2 cfg).bucketContainer = some { builtFrom := cfg } ∧
      (createBucketContainer s2 cfg).cfgs = some cfg) := by
  have hsrv : o.server = s := by
    unfold serverUpdateConfig at h
    split at h
    · exact Option.noConfusion h
    · dsimp only at h
      split at h
      · injection h with h2
        subst h2
        rfl
      · split at h
        · injection h with h2
          subst h2
          rfl
        · split at h
          · injection h with h2
            subst h2
            rfl
          · injection h with h2
            subst h2
            rfl
  refine ⟨hsrv, by rw [hsrv], by rw [hsrv], ?_, ?_⟩
  · intro s2 p2 r hstep
    unfold configListenerStep at hstep
    split at hstep
    · exact Option.noConfusion hstep
    · injection hstep with h2
      subst h2
      rfl
  · intro s2 p2 m cfg hc hu
    refine ⟨?_, rfl, rfl⟩
    simp only [readUpdatedConfig, hc, hu]

/-- Witness for C6: after the successful identity mutation of `sampleCfg`
the server state is unchanged, live config and container included. -/
theorem updateConfig_does_not_install_witness :
    ({ result := .ok (), server := sampleSrv
       persister := { samplePer with
                        current := .ok (.bytes sampleStamped)
                        history := .ok [.bytes sampleStamped]
                        signals := 1 }
       marshalCalls := [sampleStamped]
       persistCalls := [.bytes sampleStamped] } : UpdateOutcome).server = sampleSrv :=
  (updateConfig_does_not_install sampleSrv samplePer "bob" 200 id
    (fun c => .ok (.bytes c)) (fun c => .ok c) _ rfl).1

/-- C7: a reload attempt (`readUpdatedConfig`) whose persisted-config
read fails, or whose unmarshal fails, returns without installing: the
server state, with its previously installed container and config, is
unchanged; a new container is installed exactly when both steps
succeed. -/
theorem readUpdatedConfig_failure_keeps_container (s : ServerState) (p : Persister) :
    (∀ e, p.current = .error e → readUpdatedConfig s p = s) ∧
    (∀ m e, p.current = .ok m → Unmarshal m = .error e → readUpdatedConfig s p = s) ∧
    (∀ m cfg, p.current = .ok m → Unmarshal m = .ok cfg →
      readUpdatedConfig s p = createBucketContainer s cfg ∧
      (readUpdatedConfig s p).bucketContainer = some { builtFrom := cfg } ∧
      (readUpdatedConfig s p).cfgs = some cfg) := by
  refine ⟨?_, ?_, ?_⟩
  · intro e hc
    simp only [readUpdatedConfig, hc]
  · intro m e hc hu
    simp only [readUpdatedConfig, hc, hu]
  · intro m cfg hc hu
    refine ⟨?_, ?_, ?_⟩ <;> simp only [readUpdatedConfig, hc, hu, createBucketContainer]

/-- Witness for C7: with a failing persisted-config read, and separately
with corrupt persisted bytes, the reload leaves `sampleSrv` (container
installed) exactly as it was. -/
theorem readUpdatedConfig_failure_keeps_container_witness :
    readUpdatedConfig sampleSrv
        { current := .error "disk gone", history := .ok [], signals := 0,
          persistError := none } = sampleSrv ∧
    readUpdatedConfig sampleSrv
        { current := .ok .corrupt, history := .ok [], signals := 0,
          persistError := none } = sampleSrv :=
  ⟨(readUpdatedConfig_failure_keeps_container sampleSrv
      { current := .error "disk gone", history := .ok [], signals := 0,
        persistError := none }).1 "disk gone" rfl,
   (readUpdatedConfig_failure_keeps_container sampleSrv
      { current := .ok .corrupt, history := .ok [], signals := 0,
        persistError := none }).2.1 .corrupt "unmarshal failure" rfl rfl⟩

end ConfigTheorems

section StartTheorems

/-- Fresh server state before `Start`: no container, no config, no
producer. -/
def startCexSrv : ServerState :=
  { currentStatus := .init, bucketContainer := none, cfgs := none
    producer := none, eventQueueBufSize := 0, factoryInits := [] }

/-- Persister whose first (and only pending) change signal leads to a
failing persisted-config read. -/
def startCexPer : Persister :=
  { current := .error "read failure", history := .ok [], signals := 1, persistError := none }

/-- C8 counterexample: with one pending signal but a failing persisted
read, `Start` consumes the signal and returns (server `started`) with
`bucketContainer` still nil — so the first signal was not turned into an
installed container and an `Allow` issued after `Start` returns can
observe a missing container. -/
theorem start_missing_container_cex :
    Start startCexSrv startCexPer =
      some ({ startCexSrv with
                producer := some { buf := [], bufSize := 1, dropped := 0 }
                currentStatus := .started },
            { startCexPer with signals := 0 }) ∧
    ({ startCexSrv with
         producer := some { buf := [], bufSize := 1, dropped := 0 }
         currentStatus := .started } : ServerState).bucketContainer = none ∧
    ({ startCexSrv with
         producer := some { buf := [], bufSize := 1, dropped := 0 }
         currentStatus := .started } : ServerState).currentStatus = .started := by
  exact ⟨rfl, rfl, rfl⟩

/-- C8 (amended): `Start` does not return while no change signal is
pending, and when it returns it has consumed exactly one signal, marked
the server started, and run the first reload; when that reload's read
and unmarshal succeed, the resulting container (and config) are
installed before `Start` returns. -/
theorem start_blocks_first_reload (s : ServerState) (p : Persister) :
    (p.signals = 0 → Start s p = none) ∧
    (∀ s1 p1, Start s p = some (s1, p1) →
      0 < p.signals ∧ p1.signals + 1 = p.signals ∧ s1.currentStatus = .started ∧
      (∀ m cfg, p.current = .ok m → Unmarshal m = .ok cfg →
        s1.bucketContainer = some { builtFrom := cfg } ∧ s1.cfgs = some cfg)) := by
  constructor
  · intro h0
    simp only [Start, h0]
  · intro s1 p1 h
    rcases hsig : p.signals with _ | k
    · simp only [Start, hsig] at h
      exact Option.noConfusion h
    · simp only [Start, hsig] at h
      obtain ⟨hA, hB⟩ := Prod.mk.injEq .. |>.mp (Option.some.inj h)
      subst hA
      subst hB
      refine ⟨by omega, by simp, rfl, ?_⟩
      intro m cfg hc hu
      constructor <;>
        simp only [readUpdatedConfig, hc, hu, createBucketContainer]

/-- Server state after a successful first reload of `sampleCfg` from
`startCexSrv`. -/
def startOkSrv1 : ServerState :=
  { currentStatus := .started, bucketContainer := some { builtFrom := sampleCfg }
    cfgs := some sampleCfg, producer := some { buf := [], bufSize := 1, dropped := 0 }
    eventQueueBufSize := 0, factoryInits := [sampleCfg] }

/-- Persister whose pending signals lead to a successful read of
`sampleCfg`. -/
def startOkPer : Persister :=
  { current := .ok (.bytes sampleCfg), history := .ok [], signals := 2, persistError := none }

/-- Witness for C8 (amended): starting against `startOkPer` consumes one
of the two pending signals and installs the container built from
`sampleCfg` before returning. -/
theorem start_blocks_first_reload_witness :
    0 < startOkPer.signals ∧
    startOkSrv1.currentStatus = .started ∧
    startOkSrv1.bucketContainer = some { builtFrom := sampleCfg } ∧
    startOkSrv1.cfgs = some sampleCfg :=
  ⟨((start_blocks_first_reload startCexSrv startOkPer).2 startOkSrv1
      { startOkPer with signals := 1 } rfl).1,
   ((start_blocks_first_reload startCexSrv startOkPer).2 startOkSrv1
      { startOkPer with signals := 1 } rfl).2.2.1,
   (((start_blocks_first_reload startCexSrv startOkPer).2 startOkSrv1
      { startOkPer with signals := 1 } rfl).2.2.2 (.bytes sampleCfg) sampleCfg rfl rfl).1,
   (((start_blocks_first_reload startCexSrv startOkPer).2 startOkSrv1
      { startOkPer with signals := 1 } rfl).2.2.2 (.bytes sampleCfg) sampleCfg rfl rfl).2⟩

end StartTheorems

section HistoryTheorems

/-- C9: `HistoricalConfigs` propagates a history-read error, propagates
the first unmarshal error of any element, and on success returns the
deserialized configs sorted by `version` in descending order (the result
is a permutation of the deserialized list and pairwise
version-descending). -/
theorem historicalConfigs_sorted (p : Persister) :
    (∀ e, p.history = .error e → HistoricalConfigs p = .error e) ∧
    (∀ ms e, p.history = .ok ms → unmarshalAll ms = .error e →
      HistoricalConfigs p = .error e) ∧
    (∀ ms cs, p.history = .ok ms → unmarshalAll ms = .ok cs →
      HistoricalConfigs p = .ok (cs.mergeSort sortedConfigsLe) ∧
      (cs.mergeSort sortedConfigsLe).Perm cs ∧
      (cs.mergeSort sortedConfigsLe).Pairwise (fun a b => b.version ≤ a.version)) := by
  refine ⟨?_, ?_, ?_⟩
  · intro e hh
    simp only [HistoricalConfigs, hh]
  · intro ms e hh hu
    simp only [HistoricalConfigs, hh, hu]
  · intro ms cs hh hu
    refine ⟨by simp only [HistoricalConfigs, hh, hu], List.mergeSort_perm cs _, ?_⟩
    have htrans : ∀ a b c : ServiceConfig,
        sortedConfigsLe a b → sortedConfigsLe b c → sortedConfigsLe a c := by
      intro a b c hab hbc
      simp only [sortedConfigsLe, decide_eq_true_eq] at hab hbc ⊢
      exact hbc.trans hab
    have htotal : ∀ a b : ServiceConfig, sortedConfigsLe a b || sortedConfigsLe b a := by
      intro a b
      simp only [sortedConfigsLe, Bool.or_eq_true, decide_eq_true_eq]
      exact le_total b.version a.version
    have hsorted : (cs.mergeSort sortedConfigsLe).Pairwise
        (fun a b => sortedConfigsLe a b = true) :=
      List.sorted_mergeSort htrans htotal cs
    exact hsorted.imp (by
      intro a b hab
      simpa [sortedConfigsLe, decide_eq_true_eq] using hab)

/-- Persister holding three historical configs with versions 1, 3, 2 in
that (unsorted) persisted order. -/
def historyPer : Persister :=
  { current := .ok (.bytes sampleCfg)
    history := .ok
      [.bytes { globalDefaultBucket := none, namespaces := [], version := 1,
                user := "u1", date := 10 },
       .bytes { globalDefaultBucket := none, namespaces := [], version := 3,
                user := "u3", date := 30 },
       .bytes { globalDefaultBucket := none, namespaces := [], version := 2,
                user := "u2", date := 20 }]
    signals := 0, persistError := none }

/-- Witness for C9: on the concrete three-element history the result is
the sorted deserialization, a permutation of the deserialized set and
version-descending. -/
theorem historicalConfigs_sorted_witness :
    HistoricalConfigs historyPer =
      .ok (List.mergeSort
        [{ globalDefaultBucket := none, namespaces := [], version := 1,
           user := "u1", date := 10 },
         { globalDefaultBucket := none, namespaces := [], version := 3,
           user := "u3", date := 30 },
         { globalDefaultBucket := none, namespaces := [], version := 2,
           user := "u2", date := 20 }] sortedConfigsLe) ∧
    (List.mergeSort
        [{ globalDefaultBucket := none, namespaces := [], version := 1,
           user := "u1", date := 10 },
         { globalDefaultBucket := none, namespaces := [], version := 3,
           user := "u3", date := 30 },
         { globalDefaultBucket := none, namespaces := [], version := 2,
           user := "u2", date := 20 }] sortedConfigsLe).Pairwise
      (fun a b => b.version ≤ a.version) :=
  ⟨((historicalConfigs_sorted historyPer).2.2 _ _ rfl rfl).1,
   ((historicalConfigs_sorted historyPer).2.2 _ _ rfl rfl).2.2⟩

end HistoryTheorems

end QuotaService
